import Mathlib

/-!
Shallow embedding of the `src/verification` package (orchestrator, static
analyzer, spec matcher, runtime validator, peer review) of the `aleph`
repository.  External collaborators (the `Continue` completion client, the
security scanner, the linter, the Playwright sandbox, `ast.parse`, the
review models) are modelled as oracle parameters; the pipeline's own
arithmetic, control flow and record shapes are embedded faithfully from the
Python source.  Python `dict` results are embedded as structures whose
fields are exactly the keys the source writes; key-existence tests
(`"score" in d`, `d.get("passed", False)`) are embedded as functions on
those structures that mirror which keys are present.  Dynamic Python errors
that the source can raise on the modelled paths (`KeyError`,
`ZeroDivisionError`, `NameError`) are embedded with `Except`.
-/

namespace Aleph

/-- Dynamic Python errors raised on the modelled control paths. -/
inductive PyErr : Type where
  | keyError (key : String)
  | zeroDivisionError
  | nameError (name : String)
  deriving DecidableEq, Repr

instance {ε α : Type} [DecidableEq ε] [DecidableEq α] :
    DecidableEq (Except ε α) := fun a b =>
  match a, b with
  | .error e, .error e' =>
    if h : e = e' then .isTrue (by rw [h]) else .isFalse (by simp [h])
  | .error _, .ok _ => .isFalse (by simp)
  | .ok _, .error _ => .isFalse (by simp)
  | .ok x, .ok y =>
    if h : x = y then .isTrue (by rw [h]) else .isFalse (by simp [h])

/-- Python substring test `pat in s` (on the character list of `s`). -/
def strContains (s pat : String) : Bool :=
  s.data.tails.any (fun t => pat.data.isPrefixOf t)

/-- Python truthiness of an optional string (`None` and `""` are falsy):
the orchestrator passes `requirements.get("design_url")` and
`full_spec_check` branches on `if design_url`. -/
def pyTruthy (o : Option String) : Bool :=
  match o with
  | none => false
  | some s => s ≠ ""

/-- The `requirements` mapping consumed by the pipeline: keys read by the
source are `language`, `patterns`, `design_url`. -/
structure Requirements where
  language : String
  patterns : List String
  design_url : Option String
  deriving DecidableEq, Repr

/-- The syntax-error record `{"valid": False, "error": ..., "line": ...}`
returned by `StaticVerifier.verify_syntax` on a `SyntaxError`. -/
structure SyntaxErrInfo where
  error : String
  line : Nat
  deriving DecidableEq, Repr

/-- Result of `StaticVerifier.verify_syntax`: `True` on success (embedded
as `none`) or the error record (embedded as `some`).  The parse itself
(`ast.parse` on the language-selected region) is an external call, supplied
as an oracle outcome. -/
def verify_syntax (parseOutcome : Option SyntaxErrInfo) : Option SyntaxErrInfo :=
  parseOutcome

/-- `StaticVerifier.verify_patterns`: the sublist of required patterns not
found verbatim in the code. -/
def verify_patterns (code : String) (patterns : List String) : List String :=
  patterns.filter (fun pattern => ¬ strContains code pattern)

/-- Result of `SecurityAgent.scan_code_snippet` (external): the orchestrator
only reads its `issues` count. -/
structure SecurityResult where
  issues : Nat
  detail : List String
  deriving DecidableEq, Repr

/-- The report dict built by `StaticVerifier.full_static_check`: keys
`syntax` (field `syntaxRes` here), `patterns`, `security`, `linting`, `valid` — and no others. -/
structure StaticReport where
  syntaxRes : Option SyntaxErrInfo
  patterns : List String
  security : SecurityResult
  linting : Option String
  valid : Bool
  deriving DecidableEq, Repr

/-- `StaticVerifier.full_static_check`: assembles the four sub-checks and
the four-way `valid` conjunction (`syntax is True and not patterns and
security["issues"] == 0 and linting is None`).  `parseOutcome`,
`securityRes` and `lintRes` stand for the external parse / security-scan /
linter calls on this code. -/
def full_static_check (parseOutcome : Option SyntaxErrInfo)
    (securityRes : SecurityResult) (lintRes : Option String)
    (code : String) (requirements : Requirements) : StaticReport :=
  let syn := verify_syntax parseOutcome
  let pats := verify_patterns code requirements.patterns
  { syntaxRes := syn
    patterns := pats
    security := securityRes
    linting := lintRes
    valid := syn = none ∧ pats = [] ∧ securityRes.issues = 0 ∧ lintRes = none }

/-- The JSON verdict `SpecMatcher.requirement_coverage` parses from the
completion collaborator: `{covered, missing, score}`. -/
structure CoverageResult where
  covered : List String
  missing : List String
  score : ℚ
  deriving DecidableEq, Repr

/-- The JSON verdict `SpecMatcher.check_against_design` parses from the
completion collaborator: `{matches, discrepancies, similarity_score}` (field `matchesFlag` here). -/
structure DesignResult where
  matchesFlag : Bool
  discrepancies : List String
  similarity_score : ℚ
  deriving DecidableEq, Repr

/-- The report dict built by `SpecMatcher.full_spec_check`: keys
`requirement_coverage`, `design_match`, `overall_score`, `passed` — and no
others (in particular no top-level `score` or `confidence` key). -/
structure SpecReport where
  requirement_coverage : CoverageResult
  design_match : Option DesignResult
  overall_score : ℚ
  passed : Bool
  deriving DecidableEq, Repr

/-- `SpecMatcher.full_spec_check`: `design_match` is computed only when
`design_url` is truthy; `req_score := requirement_coverage["score"]`;
`design_score := design_match["similarity_score"] if design_url else 1.0`;
`overall_score := (req_score + design_score) / (2 if design_url else 1)`;
`passed := overall_score >= 0.85`.  `coverageRes` and `designRes` stand for
the external completion calls. -/
def full_spec_check (coverageRes : CoverageResult) (designRes : DesignResult)
    (design_url : Option String) : SpecReport :=
  let dm : Option DesignResult := if pyTruthy design_url then some designRes else none
  let req_score := coverageRes.score
  let design_score : ℚ := if pyTruthy design_url then designRes.similarity_score else 1
  let overall : ℚ := (req_score + design_score) / (if pyTruthy design_url then 2 else 1)
  { requirement_coverage := coverageRes
    design_match := dm
    overall_score := overall
    passed := overall ≥ 0.85 }

/-- A generated test case `{name, test, expected}` as produced by
`RuntimeValidator.generate_test_cases` (an external completion call). -/
structure TestCase where
  name : String
  test : String
  expected : String
  deriving DecidableEq, Repr

/-- One per-case record appended by `RuntimeValidator.execute_in_sandbox`:
either `{test, passed, result}` on a successful `page.evaluate`, or
`{test, passed: False, error}` when the evaluation raised. -/
structure CaseResult where
  test : String
  passed : Bool
  result : Option String
  error : Option String
  deriving DecidableEq, Repr

/-- `RuntimeValidator.execute_in_sandbox`: runs every case through the
sandbox (`evalCase` stands for `page.evaluate`, returning a value or an
exception message) and records `passed := result == expected`, or
`passed := False` with the error string when the evaluation raised.  No
case aborts the run. -/
def execute_in_sandbox (evalCase : TestCase → Except String String)
    (test_cases : List TestCase) : List CaseResult :=
  test_cases.map (fun case =>
    match evalCase case with
    | .ok result =>
        { test := case.name, passed := result = case.expected
          result := some result, error := none }
    | .error e =>
        { test := case.name, passed := false
          result := none, error := some e })

/-- The dict built by `RuntimeValidator.validate_component`: keys `passed`,
`test_cases`, `success_rate` — and no others. -/
structure RuntimeReport where
  passed : Bool
  test_cases : List CaseResult
  success_rate : ℚ
  deriving DecidableEq, Repr

/-- `RuntimeValidator.validate_component`: generates cases (`genCases`
stands for the external `generate_test_cases` call), executes them in the
sandbox, and returns `passed := all cases passed` and `success_rate :=
passed_count / total_count * 100`.  When the case list is empty the
division `/ len(results)` raises `ZeroDivisionError`. -/
def validate_component (genCases : List TestCase)
    (evalCase : TestCase → Except String String) : Except PyErr RuntimeReport :=
  let results := execute_in_sandbox evalCase genCases
  let passed := results.all (fun t => t.passed)
  if results.length = 0 then .error .zeroDivisionError
  else .ok
    { passed := passed
      test_cases := results
      success_rate := ((results.filter (fun t => t.passed)).length : ℚ)
        / (results.length : ℚ) * 100 }

/-- The JSON verdict `PeerReviewer.review_code` passes through verbatim
from the review model.  The prompt asks for `{verified, issues,
corrections, confidence}` but the payload is unconstrained model output, so
each field the orchestrator's aggregation could read (`score`,
`confidence`, `passed`) is modelled as optionally present. -/
structure PeerResult where
  score : Option ℚ
  confidence : Option ℚ
  passed : Option Bool
  verified : Option Bool
  issues : List String
  corrections : Option String
  deriving DecidableEq, Repr

/-- The dict built by `PeerReviewer.cross_model_verification`: keys
`verified`, `confidence`, `votes` — and no others (in particular no
`score` key). -/
structure ConsensusResult where
  verified : Bool
  confidence : ℚ
  votes : List Bool
  deriving DecidableEq, Repr

/-- Python `str.lower` on the character list. -/
def strLower (s : String) : String :=
  ⟨s.data.map Char.toLower⟩

/-- The consensus arithmetic at the end of
`PeerReviewer.cross_model_verification`: `confidence := sum(results) /
len(results)`; `verified := confidence >= 0.7`. -/
def consensusOf (results : List Bool) : ConsensusResult :=
  let confidence : ℚ := ((results.filter id).length : ℚ) / (results.length : ℚ)
  { verified := confidence ≥ 0.7
    confidence := confidence
    votes := results }

/-- The fixed evaluator list of `PeerReviewer.cross_model_verification`. -/
def consensusModels : List String :=
  ["deepseek-coder:6.7b", "llama3.1:8b", "phind-coder:34b"]

/-- `PeerReviewer.cross_model_verification`: asks each of the three fixed
models (`modelResponse` stands for `self.c.complete` under
`switch_model`), normalises each answer with `"yes" in result.lower()`,
and applies the consensus arithmetic. -/
def cross_model_verification (modelResponse : String → String) : ConsensusResult :=
  consensusOf (consensusModels.map
    (fun model => strContains (strLower (modelResponse model)) "yes"))

/-- The runtime stage entry of the report: either the full
`validate_component` dict, or the marker dict
`{"skipped": "Static validation failed"}` written when the static stage's
`valid` flag is false. -/
inductive RuntimeStage : Type where
  | skipped (reason : String)
  | testRun (run : RuntimeReport)
  deriving DecidableEq, Repr

/-- How one stage's dict looks to the aggregation loop of
`VerificationPipeline.verify`: whether a top-level `score` key is present
(and its value), whether a top-level `confidence` key is present, and the
value of `d.get("passed", False)`. -/
structure StageView where
  score : Option ℚ
  confidence : Option ℚ
  passed : Bool
  deriving DecidableEq, Repr

/-- One iteration of the aggregation loop: `score * weight` if a `score`
key is present; else `confidence * weight` if a `confidence` key is
present; else the full `weight` if `get("passed", False)`; else 0. -/
def stageContribution (view : StageView) (weight : ℚ) : ℚ :=
  match view.score with
  | some s => s * weight
  | none =>
    match view.confidence with
    | some c => c * weight
    | none => if view.passed then weight else 0

/-- The static report dict has keys `syntax`, `patterns`, `security`,
`linting`, `valid` only: no `score`, no `confidence`, no `passed`. -/
def staticView (_ : StaticReport) : StageView :=
  { score := none, confidence := none, passed := false }

/-- The spec report dict has keys `requirement_coverage`, `design_match`,
`overall_score`, `passed`: no `score`, no `confidence`. -/
def specView (r : SpecReport) : StageView :=
  { score := none, confidence := none, passed := r.passed }

/-- The runtime stage dict is either `{"skipped": ...}` (no relevant keys)
or `{passed, test_cases, success_rate}` (no `score`, no `confidence`). -/
def runtimeView (r : RuntimeStage) : StageView :=
  match r with
  | .skipped _ => { score := none, confidence := none, passed := false }
  | .testRun run => { score := none, confidence := none, passed := run.passed }

/-- The peer review dict is the raw model JSON: each key is present
exactly when the model emitted it. -/
def peerView (r : PeerResult) : StageView :=
  { score := r.score, confidence := r.confidence, passed := r.passed.getD false }

/-- The consensus dict has keys `verified`, `confidence`, `votes`: no
`score`, and `confidence` always present. -/
def consensusView (r : ConsensusResult) : StageView :=
  { score := none, confidence := some r.confidence, passed := false }

/-- The `results` mapping of a verification report, in the stage order of
`VerificationPipeline.verify`. -/
structure StageResults where
  static : StaticReport
  spec : SpecReport
  runtime : RuntimeStage
  peer : PeerResult
  consensus : ConsensusResult
  deriving DecidableEq, Repr

/-- A `VerificationReport` as assembled by `VerificationPipeline.verify`:
`id`, `requirements`, `code`, `timestamp`, `results`,
`verification_score`, `verified`. -/
structure Report where
  id : String
  requirements : Requirements
  code : String
  timestamp : Nat
  results : StageResults
  verification_score : ℚ
  verified : Bool
  deriving DecidableEq, Repr

/-- The external collaborators of the pipeline, as response oracles:
`ast.parse` outcome, `SecurityAgent.scan_code_snippet`, the linter, the
completion client's coverage / design / peer-review / per-model verdicts,
the generated test cases and the sandbox evaluator. -/
structure Collaborators where
  parseOutcome : String → Requirements → Option SyntaxErrInfo
  securityScan : String → SecurityResult
  lintRes : String → Requirements → Option String
  coverage : String → Requirements → CoverageResult
  designMatch : String → Option String → DesignResult
  genTests : Requirements → List TestCase
  evalCase : TestCase → Except String String
  peerReview : String → Requirements → String → PeerResult
  modelResponse : String → String → Requirements → String

/-- `VerificationPipeline.verify`: runs the static check, the spec check,
the runtime check gated on `static.valid` (else the skipped marker), the
peer review and the multi-model consensus, then sums the per-stage
contributions with the fixed weights static 0.2, spec 0.3, runtime 0.3,
peer 0.15, consensus 0.05, and sets `verified := score >= 0.85`.  A
`ZeroDivisionError` from `validate_component` propagates out of `verify`.
`now` stands for `time.time()`. -/
def verify (co : Collaborators) (now : Nat) (generated_code : String)
    (requirements : Requirements) (context : String) : Except PyErr Report :=
  let static := full_static_check (co.parseOutcome generated_code requirements)
    (co.securityScan generated_code) (co.lintRes generated_code requirements)
    generated_code requirements
  let spec := full_spec_check (co.coverage generated_code requirements)
    (co.designMatch generated_code requirements.design_url) requirements.design_url
  let runtimeStage : Except PyErr RuntimeStage :=
    if static.valid then
      (validate_component (co.genTests requirements) co.evalCase).map .testRun
    else .ok (.skipped "Static validation failed")
  match runtimeStage with
  | .error e => .error e
  | .ok runtime =>
    let peer := co.peerReview generated_code requirements context
    let consensus := cross_model_verification
      (fun model => co.modelResponse model generated_code requirements)
    let score := stageContribution (staticView static) 0.2
      + stageContribution (specView spec) 0.3
      + stageContribution (runtimeView runtime) 0.3
      + stageContribution (peerView peer) 0.15
      + stageContribution (consensusView consensus) 0.05
    .ok { id := "verify_" ++ toString now
          requirements := requirements
          code := generated_code
          timestamp := now
          results := ⟨static, spec, runtime, peer, consensus⟩
          verification_score := score
          verified := score ≥ 0.85 }

/-- `verify` together with its side effect: on success the report is
appended to `verification_history`; on an exception nothing is appended. -/
def verify_with_history (co : Collaborators) (now : Nat)
    (generated_code : String) (requirements : Requirements) (context : String)
    (history : List Report) : Except PyErr (Report × List Report) :=
  match verify co now generated_code requirements context with
  | .error e => .error e
  | .ok report => .ok (report, history ++ [report])

/-- The feedback digest of `VerificationPipeline.generate_corrections`.
The static report dict has no `error` key and the spec report dict no
`discrepancies` key, so those two `.get(..., '')` lines render empty; the
runtime line renders the failing cases; the peer line renders the issue
list. -/
def correction_feedback (report : Report) (run : RuntimeReport) : String :=
  String.intercalate "\n"
    ["Static Analysis: "
    , "Spec Compliance: "
    , "Runtime Issues: " ++ toString (repr (run.test_cases.filter (fun t => ¬ t.passed)))
    , "Peer Review: " ++ toString (repr report.results.peer.issues)]

/-- The correction prompt sent to the completion collaborator. -/
def correction_prompt (report : Report) (feedback : String) : String :=
  "Correct this code based on verification feedback:\n\nOriginal Requirements:\n"
    ++ toString (repr report.requirements)
    ++ "\n\nGenerated Code:\n" ++ report.code
    ++ "\n\nVerification Feedback:\n" ++ feedback
    ++ "\n\nProvide corrected code implementing all feedback."

/-- `VerificationPipeline.generate_corrections`: a verified report's code
is returned unchanged; otherwise the feedback digest indexes
`report["results"]["runtime"]["test_cases"]`, which raises `KeyError` when
the runtime stage is the `{"skipped": ...}` marker; otherwise the digest is
handed to the completion collaborator (`complete`) for a replacement
candidate. -/
def generate_corrections (complete : String → String) (report : Report) :
    Except PyErr String :=
  if report.verified then .ok report.code
  else
    match report.results.runtime with
    | .skipped _ => .error (.keyError "test_cases")
    | .testRun run =>
      .ok (complete (correction_prompt report (correction_feedback report run)))

/-- The record returned by `VerificationPipeline.iterative_correction`. -/
structure IterResult where
  code : String
  verified : Bool
  attempts : Nat
  report : Report
  deriving DecidableEq, Repr

/-- The body of `iterative_correction`'s `for attempt in
range(max_attempts)` loop, with `vf` standing for `self.verify` (all
collaborator inputs fixed) and `cf` for `self.generate_corrections`: run
`vf`; on a verified report return at `attempts := attempt + 1` with the
code that was verified; otherwise obtain a corrected candidate from `cf`
and continue, or — when the range is exhausted — return the corrected
candidate together with the still-current (stale) report.  Exceptions from
either call propagate. -/
def iteration_loop (vf : String → Except PyErr Report)
    (cf : Report → Except PyErr String) (max_attempts : Nat)
    (generated_code : String) (attempt : Nat) : Except PyErr IterResult :=
  match vf generated_code with
  | .error e => .error e
  | .ok report =>
    if report.verified then
      .ok { code := generated_code, verified := true
            attempts := attempt + 1, report := report }
    else
      match cf report with
      | .error e => .error e
      | .ok corrected =>
        if h : attempt + 1 < max_attempts then
          iteration_loop vf cf max_attempts corrected (attempt + 1)
        else
          .ok { code := corrected, verified := false
                attempts := max_attempts, report := report }
termination_by max_attempts - attempt
decreasing_by omega

/-- `VerificationPipeline.iterative_correction`: with `max_attempts = 0`
the loop body never runs and the trailing `return` reads the unbound local
`report` (`NameError`); otherwise the loop runs from `attempt = 0`. -/
def iterative_correction (vf : String → Except PyErr Report)
    (cf : Report → Except PyErr String) (generated_code : String)
    (max_attempts : Nat) : Except PyErr IterResult :=
  if max_attempts = 0 then .error (.nameError "report")
  else iteration_loop vf cf max_attempts generated_code 0

/-- Number of `vf` (i.e. `self.verify`) calls `iteration_loop` performs. -/
def iteration_calls (vf : String → Except PyErr Report)
    (cf : Report → Except PyErr String) (max_attempts : Nat)
    (generated_code : String) (attempt : Nat) : Nat :=
  match vf generated_code with
  | .error _ => 1
  | .ok report =>
    if report.verified then 1
    else
      match cf report with
      | .error _ => 1
      | .ok corrected =>
        if h : attempt + 1 < max_attempts then
          1 + iteration_calls vf cf max_attempts corrected (attempt + 1)
        else 1
termination_by max_attempts - attempt
decreasing_by omega

/-- Number of `verify` calls `iterative_correction` performs. -/
def verify_call_count (vf : String → Except PyErr Report)
    (cf : Report → Except PyErr String) (generated_code : String)
    (max_attempts : Nat) : Nat :=
  if max_attempts = 0 then 0
  else iteration_calls vf cf max_attempts generated_code 0

/-- For exception-free checker and corrector stubs: the sequence of code
candidates the loop walks through (`candidate_seq 0` is the initial code,
`candidate_seq (i+1)` the correction of the `i`-th report). -/
def candidate_seq (vf : String → Report) (cf : Report → String)
    (code : String) : Nat → String
  | 0 => code
  | n + 1 => cf (vf (candidate_seq vf cf code n))

/-- A concrete unverified stub report, used to instantiate checker stubs. -/
def stubReport (code : String) (verified : Bool) : Report :=
  { id := "verify_0"
    requirements := ⟨"vue", [], none⟩
    code := code
    timestamp := 0
    results :=
      { static := full_static_check none ⟨0, []⟩ none code ⟨"vue", [], none⟩
        spec := full_spec_check ⟨[], [], 1⟩ ⟨true, [], 1⟩ none
        runtime := .skipped "Static validation failed"
        peer := ⟨none, none, none, none, [], none⟩
        consensus := consensusOf [false, false, false] }
    verification_score := 0
    verified := verified }

theorem iteration_loop_unfold (vf : String → Except PyErr Report)
    (cf : Report → Except PyErr String) (max_attempts : Nat)
    (code : String) (attempt : Nat) :
    iteration_loop vf cf max_attempts code attempt
      = match vf code with
        | .error e => .error e
        | .ok report =>
          if report.verified then
            .ok { code := code, verified := true
                  attempts := attempt + 1, report := report }
          else
            match cf report with
            | .error e => .error e
            | .ok corrected =>
              if _h : attempt + 1 < max_attempts then
                iteration_loop vf cf max_attempts corrected (attempt + 1)
              else
                .ok { code := corrected, verified := false
                      attempts := max_attempts, report := report } := by
  rw [iteration_loop]

theorem iteration_calls_unfold (vf : String → Except PyErr Report)
    (cf : Report → Except PyErr String) (max_attempts : Nat)
    (code : String) (attempt : Nat) :
    iteration_calls vf cf max_attempts code attempt
      = match vf code with
        | .error _ => 1
        | .ok report =>
          if report.verified then 1
          else
            match cf report with
            | .error _ => 1
            | .ok corrected =>
              if _h : attempt + 1 < max_attempts then
                1 + iteration_calls vf cf max_attempts corrected (attempt + 1)
              else 1 := by
  rw [iteration_calls]

theorem candidate_seq_shift (vf : String → Report) (cf : Report → String)
    (code : String) (n : Nat) :
    candidate_seq vf cf (cf (vf code)) n = candidate_seq vf cf code (n + 1) := by
  induction n with
  | zero => rfl
  | succ n ih => simp [candidate_seq, ih]

theorem loop_exhausts (vf : String → Report) (cf : Report → String)
    (hnv : ∀ c, (vf c).verified = false) :
    ∀ (d max_attempts attempt : Nat) (code : String),
    attempt + d + 1 = max_attempts →
    iteration_loop (fun c => .ok (vf c)) (fun r => .ok (cf r)) max_attempts code attempt
      = .ok { code := candidate_seq vf cf code (d + 1), verified := false
            , attempts := max_attempts
            , report := vf (candidate_seq vf cf code d) }
    ∧ iteration_calls (fun c => .ok (vf c)) (fun r => .ok (cf r)) max_attempts code attempt
      = d + 1 := by
  intro d
  induction d with
  | zero =>
    intro max_attempts attempt code hmax
    subst hmax
    rw [iteration_loop_unfold, iteration_calls_unfold]
    simp [hnv code, candidate_seq]
  | succ d ih =>
    intro max_attempts attempt code hmax
    rw [iteration_loop_unfold, iteration_calls_unfold]
    have hlt : attempt + 1 < max_attempts := by omega
    have ihh := ih max_attempts (attempt + 1) (cf (vf code)) (by omega)
    simp only [hnv code, if_false, Bool.false_eq_true, dif_pos hlt]
    rw [candidate_seq_shift, candidate_seq_shift] at ihh
    exact ⟨ihh.1, by rw [ihh.2, Nat.add_comm]⟩

theorem loop_success (vf : String → Report) (cf : Report → String) :
    ∀ (m max_attempts attempt : Nat) (code : String),
    attempt + m < max_attempts →
    (∀ i, i < m → (vf (candidate_seq vf cf code i)).verified = false) →
    (vf (candidate_seq vf cf code m)).verified = true →
    iteration_loop (fun c => .ok (vf c)) (fun r => .ok (cf r)) max_attempts code attempt
      = .ok { code := candidate_seq vf cf code m, verified := true
            , attempts := attempt + m + 1
            , report := vf (candidate_seq vf cf code m) }
    ∧ iteration_calls (fun c => .ok (vf c)) (fun r => .ok (cf r)) max_attempts code attempt
      = m + 1 := by
  intro m
  induction m with
  | zero =>
    intro max_attempts attempt code _ _ hv
    rw [iteration_loop_unfold, iteration_calls_unfold]
    simp only [candidate_seq] at hv
    simp [hv, candidate_seq]
  | succ m ih =>
    intro max_attempts attempt code hlt hprev hv
    rw [iteration_loop_unfold, iteration_calls_unfold]
    have h0 : (vf code).verified = false := by
      have := hprev 0 (by omega)
      simpa [candidate_seq] using this
    have hlt1 : attempt + 1 < max_attempts := by omega
    have ihh := ih max_attempts (attempt + 1) (cf (vf code)) (by omega)
      (fun i hi => by
        rw [candidate_seq_shift]
        exact hprev (i + 1) (by omega))
      (by rw [candidate_seq_shift]; exact hv)
    rw [candidate_seq_shift] at ihh
    simp only [h0, Bool.false_eq_true, if_false, dif_pos hlt1]
    refine ⟨?_, by rw [ihh.2, Nat.add_comm]⟩
    rw [ihh.1]
    have h3 : attempt + 1 + m + 1 = attempt + (m + 1) + 1 := by omega
    rw [h3]

/-- Claim C6: for every `max_attempts >= 1`, `iterative_correction`
terminates: with a checker stub that never verifies it performs exactly
`max_attempts` verify calls and returns `verified = false` with `attempts =
max_attempts`; when the `k`-th verify call (`k <= max_attempts`) produces
the first verified report it performs exactly `k` verify calls and returns
`verified = true` with `attempts = k`, returning the verified candidate
itself (no correction is generated from that final report). -/
theorem iterative_correction_bounded_termination
    (vf : String → Report) (cf : Report → String) (code : String)
    (max_attempts : Nat) (hmax : 1 ≤ max_attempts) :
    ((∀ c, (vf c).verified = false) →
      iterative_correction (fun c => .ok (vf c)) (fun r => .ok (cf r)) code max_attempts
        = .ok { code := candidate_seq vf cf code max_attempts, verified := false
              , attempts := max_attempts
              , report := vf (candidate_seq vf cf code (max_attempts - 1)) }
      ∧ verify_call_count (fun c => .ok (vf c)) (fun r => .ok (cf r)) code max_attempts
        = max_attempts)
    ∧ (∀ k, 1 ≤ k → k ≤ max_attempts →
        (∀ i, i < k - 1 → (vf (candidate_seq vf cf code i)).verified = false) →
        (vf (candidate_seq vf cf code (k - 1))).verified = true →
        iterative_correction (fun c => .ok (vf c)) (fun r => .ok (cf r)) code max_attempts
          = .ok { code := candidate_seq vf cf code (k - 1), verified := true
                , attempts := k
                , report := vf (candidate_seq vf cf code (k - 1)) }
        ∧ verify_call_count (fun c => .ok (vf c)) (fun r => .ok (cf r)) code max_attempts
          = k) := by
  have hne : max_attempts ≠ 0 := by omega
  constructor
  · intro hnv
    have h := loop_exhausts vf cf hnv (max_attempts - 1) max_attempts 0 code (by omega)
    have hd : max_attempts - 1 + 1 = max_attempts := by omega
    rw [hd] at h
    unfold iterative_correction verify_call_count
    simp only [hne, if_false]
    exact h
  · intro k hk1 hk2 hprev hv
    have h := loop_success vf cf (k - 1) max_attempts 0 code (by omega) hprev hv
    have hd : 0 + (k - 1) + 1 = k := by omega
    rw [hd] at h
    unfold iterative_correction verify_call_count
    simp only [hne, if_false]
    have hd2 : k - 1 + 1 = k := by omega
    rw [hd2] at h
    exact h

/-- Witness for C6 at a concrete never-verifying stub with three attempts. -/
theorem iterative_correction_bounded_termination_witness :
    iterative_correction (fun c => .ok (stubReport c false))
        (fun r => .ok (r.code ++ "x")) "a" 3
      = .ok { code := "axxx", verified := false, attempts := 3
            , report := stubReport "axx" false }
    ∧ verify_call_count (fun c => .ok (stubReport c false))
        (fun r => .ok (r.code ++ "x")) "a" 3 = 3 := by
  have h := (iterative_correction_bounded_termination
    (fun c => stubReport c false) (fun r => r.code ++ "x") "a" 3 (by norm_num)).1
    (fun c => rfl)
  simpa [candidate_seq, stubReport] using h

/-- Claim C8 (counterexample): on exhaustion `iterative_correction` does
not pair the returned code with that code's own verification report.  With
a checker stub mirroring `verify` (the report's `code` field records the
candidate it was produced for) and a corrector that appends `"x"`,
`max_attempts = 1` returns the corrected code `"ax"` together with the
report produced for `"a"` — and the checker's report for `"ax"` differs
from the returned report. -/
theorem exhausted_report_is_not_returned_codes_report :
    iterative_correction (fun c => .ok (stubReport c false))
        (fun r => .ok (r.code ++ "x")) "a" 1
      = .ok { code := "ax", verified := false, attempts := 1
            , report := stubReport "a" false }
    ∧ stubReport "ax" false ≠ stubReport "a" false := by
  constructor
  · have h := (loop_exhausts (fun c => stubReport c false) (fun r => r.code ++ "x")
      (fun c => rfl) 0 1 0 "a" (by omega)).1
    unfold iterative_correction
    norm_num
    simpa [candidate_seq, stubReport] using h
  · decide

/-- Claim C8 (amended): when `iterative_correction` exhausts
`max_attempts` without a verified report, it returns the code produced by
the final `generate_corrections` call paired with the report of the
previous candidate (the last code actually verified): the `report` field
describes the candidate before the final correction, not the returned
`code`. -/
theorem iterative_correction_exhaustion_returns_stale_report
    (vf : String → Report) (cf : Report → String) (code : String)
    (max_attempts : Nat) (hmax : 1 ≤ max_attempts)
    (hnv : ∀ c, (vf c).verified = false) :
    iterative_correction (fun c => .ok (vf c)) (fun r => .ok (cf r)) code max_attempts
      = .ok { code := cf (vf (candidate_seq vf cf code (max_attempts - 1)))
            , verified := false
            , attempts := max_attempts
            , report := vf (candidate_seq vf cf code (max_attempts - 1)) } := by
  have hne : max_attempts ≠ 0 := by omega
  have h := (loop_exhausts vf cf hnv (max_attempts - 1) max_attempts 0 code (by omega)).1
  unfold iterative_correction
  simp only [hne, if_false]
  rw [h]
  rfl

/-- Witness for the amended C8 at a concrete stub with one attempt. -/
theorem iterative_correction_exhaustion_returns_stale_report_witness :
    iterative_correction (fun c => .ok (stubReport c false))
        (fun r => .ok (r.code ++ "x")) "b" 2
      = .ok { code := "bxx", verified := false, attempts := 2
            , report := stubReport "bx" false } := by
  have h := iterative_correction_exhaustion_returns_stale_report
    (fun c => stubReport c false) (fun r => r.code ++ "x") "b" 2 (by norm_num)
    (fun c => rfl)
  simpa [candidate_seq, stubReport] using h

/-- Claim C9: for every non-verified report whose runtime stage is the
`Skipped` marker, `generate_corrections` raises `KeyError` at
`report["results"]["runtime"]["test_cases"]` instead of producing a
feedback digest, and `iterative_correction` propagates that exception
instead of continuing the loop. -/
theorem corrections_keyerror_on_skipped_runtime
    (complete : String → String) (report : Report) (reason : String)
    (hv : report.verified = false)
    (hr : report.results.runtime = .skipped reason) :
    generate_corrections complete report = .error (.keyError "test_cases")
    ∧ ∀ (vf : String → Except PyErr Report) (code : String) (max_attempts : Nat),
        1 ≤ max_attempts → vf code = .ok report →
        iterative_correction vf (generate_corrections complete) code max_attempts
          = .error (.keyError "test_cases") := by
  have hgc : generate_corrections complete report = .error (.keyError "test_cases") := by
    unfold generate_corrections
    rw [hv, hr]
    simp
  refine ⟨hgc, ?_⟩
  intro vf code max_attempts hmax hvf
  have hne : max_attempts ≠ 0 := by omega
  unfold iterative_correction
  simp only [hne, if_false]
  rw [iteration_loop_unfold, hvf]
  simp [hv, hgc]

/-- Witness for C9 at a concrete skipped-runtime report. -/
theorem corrections_keyerror_on_skipped_runtime_witness :
    generate_corrections (fun _ => "fixed") (stubReport "a" false)
      = .error (.keyError "test_cases")
    ∧ iterative_correction (fun _ => .ok (stubReport "a" false))
        (generate_corrections (fun _ => "fixed")) "a" 3
      = .error (.keyError "test_cases") := by
  have h := corrections_keyerror_on_skipped_runtime (fun _ => "fixed")
    (stubReport "a" false) "Static validation failed" rfl rfl
  exact ⟨h.1, h.2 (fun _ => .ok (stubReport "a" false)) "a" 3 (by norm_num) rfl⟩

/-- Claim C7: for every vote sequence, the consensus confidence is the
fraction of yes votes, and the verified flag is set exactly when the
confidence is at least 0.7, equivalently when the yes count is at least
`ceil(0.7 * vote_count)`; with three evaluators, two yes votes give
confidence 2/3 and `verified = false`, three yes votes give confidence 1
and `verified = true`. -/
theorem consensus_vote_threshold (votes : List Bool) (hne : 0 < votes.length) :
    (consensusOf votes).confidence
      = (((votes.filter id).length : ℚ) / (votes.length : ℚ))
    ∧ ((consensusOf votes).verified = true ↔
        (0.7 : ℚ) ≤ (consensusOf votes).confidence)
    ∧ ((consensusOf votes).verified = true ↔
        ⌈(0.7 : ℚ) * (votes.length : ℚ)⌉ ≤ ((votes.filter id).length : ℤ))
    ∧ (consensusOf [true, true, false]).confidence = 2 / 3
    ∧ (consensusOf [true, true, false]).verified = false
    ∧ (consensusOf [true, true, true]).confidence = 1
    ∧ (consensusOf [true, true, true]).verified = true := by
  have hq : (0 : ℚ) < (votes.length : ℚ) := by exact_mod_cast hne
  have hiff : (consensusOf votes).verified = true ↔
      (0.7 : ℚ) ≤ (consensusOf votes).confidence := by
    simp [consensusOf, ge_iff_le]
  refine ⟨rfl, hiff, ?_, by norm_num [consensusOf], by norm_num [consensusOf],
    by norm_num [consensusOf], by norm_num [consensusOf]⟩
  rw [hiff]
  show (0.7 : ℚ) ≤ ((votes.filter id).length : ℚ) / (votes.length : ℚ) ↔ _
  rw [le_div_iff₀ hq, Int.ceil_le]
  push_cast
  exact Iff.rfl

/-- Witness for C7 at the three-vote lists. -/
theorem consensus_vote_threshold_witness :
    (0 : Nat) < ([true, true, false] : List Bool).length
    ∧ (consensusOf [true, true, false]).confidence = 2 / 3
    ∧ (consensusOf [true, true, false]).verified = false :=
  ⟨by decide, (consensus_vote_threshold [true, true, false] (by decide)).2.2.2.1,
    (consensus_vote_threshold [true, true, false] (by decide)).2.2.2.2.1⟩

/-- Claim C10: `validate_component` raises `ZeroDivisionError` when the
generated test-case list is empty (division by `len(results)`), and for a
non-empty list returns `success_rate = passed_count / total_count * 100`
with `passed` true exactly when every case passed. -/
theorem validate_component_success_rate
    (genCases : List TestCase) (evalCase : TestCase → Except String String) :
    (genCases = [] → validate_component genCases evalCase = .error .zeroDivisionError)
    ∧ (genCases ≠ [] →
        validate_component genCases evalCase
          = .ok { passed := (execute_in_sandbox evalCase genCases).all (fun t => t.passed)
                , test_cases := execute_in_sandbox evalCase genCases
                , success_rate := (((execute_in_sandbox evalCase genCases).filter
                      (fun t => t.passed)).length : ℚ)
                    / ((execute_in_sandbox evalCase genCases).length : ℚ) * 100 }
        ∧ (execute_in_sandbox evalCase genCases).length = genCases.length
        ∧ ((execute_in_sandbox evalCase genCases).all (fun t => t.passed) = true
            ↔ ∀ t ∈ execute_in_sandbox evalCase genCases, t.passed = true)) := by
  constructor
  · intro hempty
    subst hempty
    rfl
  · intro hne
    have hlen : (execute_in_sandbox evalCase genCases).length = genCases.length := by
      simp [execute_in_sandbox]
    have hnz : ¬ (execute_in_sandbox evalCase genCases).length = 0 := by
      rw [hlen]
      simpa using hne
    refine ⟨?_, hlen, List.all_eq_true⟩
    unfold validate_component
    simp only [hnz, if_false]

/-- Witness for C10: the empty case list errors; a singleton list that
passes reports a 100 percent success rate. -/
theorem validate_component_success_rate_witness :
    validate_component [] (fun c => .ok c.expected) = .error .zeroDivisionError
    ∧ validate_component [⟨"t1", "js", "1"⟩] (fun c => .ok c.expected)
      = .ok { passed := true
            , test_cases := [{ test := "t1", passed := true
                              , result := some "1", error := none }]
            , success_rate := 100 } := by
  have h1 := (validate_component_success_rate [] (fun c => .ok c.expected)).1 rfl
  have h2 := (validate_component_success_rate [⟨"t1", "js", "1"⟩]
    (fun c => .ok c.expected)).2 (by decide)
  refine ⟨h1, ?_⟩
  rw [h2.1]
  norm_num [execute_in_sandbox]

/-- Claim C3 (code behaviour at the failing input): with no design
reference and a requirement-coverage score of 0.5, `full_spec_check`
returns `overall_score = 1.5` — the sum `req_score + 1.0` divided by 1 —
and `passed = true`, instead of the claimed `overall_score = 0.5` with
`passed = false`. -/
theorem spec_check_no_design_inflates_score :
    full_spec_check ⟨[], [], 0.5⟩ ⟨true, [], 0⟩ none
      = { requirement_coverage := ⟨[], [], 0.5⟩
        , design_match := none
        , overall_score := 1.5
        , passed := true }
    ∧ (1.5 : ℚ) ≠ 0.5 := by
  constructor
  · norm_num [full_spec_check, pyTruthy]
  · norm_num

theorem verify_ok_shape (co : Collaborators) (now : Nat) (code : String)
    (reqs : Requirements) (ctx : String) (r : Report)
    (h : verify co now code reqs ctx = .ok r) :
    r.results.static = full_static_check (co.parseOutcome code reqs)
        (co.securityScan code) (co.lintRes code reqs) code reqs
    ∧ r.results.spec = full_spec_check (co.coverage code reqs)
        (co.designMatch code reqs.design_url) reqs.design_url
    ∧ r.results.peer = co.peerReview code reqs ctx
    ∧ r.results.consensus = cross_model_verification
        (fun model => co.modelResponse model code reqs)
    ∧ r.verification_score
        = stageContribution (staticView r.results.static) 0.2
          + stageContribution (specView r.results.spec) 0.3
          + stageContribution (runtimeView r.results.runtime) 0.3
          + stageContribution (peerView r.results.peer) 0.15
          + stageContribution (consensusView r.results.consensus) 0.05
    ∧ (r.verified = true ↔ r.verification_score ≥ 0.85) := by
  unfold verify at h
  dsimp only at h
  split at h
  next e heq => exact absurd h (by simp)
  next runtime heq =>
    injection h with h
    subst h
    refine ⟨rfl, rfl, rfl, rfl, rfl, ?_⟩
    simp [decide_eq_true_iff]

/-- Claim C1 (amended): the aggregate score is the sum of per-stage
contributions computed by the source's rule (`score` key, else
`confidence` key, else full weight on a true `passed` flag, else 0) with
weights static 0.20, spec 0.30, runtime 0.30, peer 0.15, consensus 0.05,
and `verified` holds exactly when the sum is at least 0.85 — but the
static stage's dict has no `score`, `confidence` or `passed` key, so a
fully passing static stage contributes 0 (not 0.20), and the spec stage's
dict exposes `overall_score`/`passed` rather than `score`, so it
contributes its full 0.30 exactly when `passed` is true (not `0.30 *
coverage score`). -/
theorem verify_stage_weighted_scoring (co : Collaborators) (now : Nat)
    (code : String) (reqs : Requirements) (ctx : String) (r : Report)
    (h : verify co now code reqs ctx = .ok r) :
    r.verification_score
      = stageContribution (staticView r.results.static) 0.2
        + stageContribution (specView r.results.spec) 0.3
        + stageContribution (runtimeView r.results.runtime) 0.3
        + stageContribution (peerView r.results.peer) 0.15
        + stageContribution (consensusView r.results.consensus) 0.05
    ∧ stageContribution (staticView r.results.static) 0.2 = 0
    ∧ stageContribution (specView r.results.spec) 0.3
        = (if r.results.spec.passed then (0.3 : ℚ) else 0)
    ∧ (r.verified = true ↔ r.verification_score ≥ 0.85) := by
  obtain ⟨-, -, -, -, hscore, hver⟩ := verify_ok_shape co now code reqs ctx r h
  exact ⟨hscore, rfl, rfl, hver⟩

/-- Requirements of the worked end-to-end scenario: pattern `foo`, no
design reference. -/
def exReqs : Requirements := ⟨"vue", ["foo"], none⟩

/-- Five generated test cases, all expecting `"1"`. -/
def exCases : List TestCase :=
  [⟨"t1", "js", "1"⟩, ⟨"t2", "js", "1"⟩, ⟨"t3", "js", "1"⟩,
   ⟨"t4", "js", "1"⟩, ⟨"t5", "js", "1"⟩]

/-- Collaborator responses of the worked scenario: clean parse, no
security issues, clean lint, coverage score 0.9, all five sandbox cases
pass, peer confidence 0.9, and all three consensus models answer yes. -/
def exCollab : Collaborators :=
  { parseOutcome := fun _ _ => none
    securityScan := fun _ => ⟨0, []⟩
    lintRes := fun _ _ => none
    coverage := fun _ _ => ⟨[], [], 0.9⟩
    designMatch := fun _ _ => ⟨true, [], 1⟩
    genTests := fun _ => exCases
    evalCase := fun c => .ok c.expected
    peerReview := fun _ _ _ => ⟨none, some 0.9, none, some true, [], none⟩
    modelResponse := fun _ _ _ => "yes" }

/-- The sandbox results of the worked scenario: all five cases pass. -/
def exCaseResults : List CaseResult :=
  [⟨"t1", true, some "1", none⟩, ⟨"t2", true, some "1", none⟩,
   ⟨"t3", true, some "1", none⟩, ⟨"t4", true, some "1", none⟩,
   ⟨"t5", true, some "1", none⟩]

/-- The report `verify` produces for the worked scenario: static fully
valid, spec passed with inflated overall score 1.9, runtime 5/5, peer
confidence 0.9, consensus 3/3 — aggregate score 0.785, not verified. -/
def exReport : Report :=
  { id := "verify_0"
    requirements := exReqs
    code := "const foo = 1"
    timestamp := 0
    results :=
      { static := ⟨none, [], ⟨0, []⟩, none, true⟩
        spec := ⟨⟨[], [], 0.9⟩, none, 1.9, true⟩
        runtime := .testRun ⟨true, exCaseResults, 100⟩
        peer := ⟨none, some 0.9, none, some true, [], none⟩
        consensus := ⟨true, 1, [true, true, true]⟩ }
    verification_score := 0.785
    verified := false }

theorem exVerify_eq :
    verify exCollab 0 "const foo = 1" exReqs "ctx" = .ok exReport := by
  have hstatic : full_static_check none ⟨0, []⟩ none "const foo = 1" exReqs
      = ⟨none, [], ⟨0, []⟩, none, true⟩ := by decide
  have hsandbox : execute_in_sandbox (fun c => .ok c.expected) exCases
      = exCaseResults := by decide
  have hvotes : (consensusModels.map
      (fun _ => strContains (strLower "yes") "yes")) = [true, true, true] := by decide
  unfold verify
  dsimp only [exCollab]
  rw [hstatic]
  dsimp only
  unfold validate_component
  rw [hsandbox]
  unfold cross_model_verification
  rw [hvotes]
  dsimp only [Except.map]
  norm_num [exCaseResults, full_spec_check, pyTruthy, exReqs,
    consensusOf, stageContribution, staticView,
    specView, runtimeView, peerView, consensusView, exReport]
  rfl

/-- Witness for the amended C1 at the worked scenario. -/
theorem verify_stage_weighted_scoring_witness :
    verify exCollab 0 "const foo = 1" exReqs "ctx" = .ok exReport
    ∧ exReport.verification_score
        = stageContribution (staticView exReport.results.static) 0.2
          + stageContribution (specView exReport.results.spec) 0.3
          + stageContribution (runtimeView exReport.results.runtime) 0.3
          + stageContribution (peerView exReport.results.peer) 0.15
          + stageContribution (consensusView exReport.results.consensus) 0.05
    ∧ stageContribution (staticView exReport.results.static) 0.2 = 0
    ∧ (exReport.verified = true ↔ exReport.verification_score ≥ 0.85) := by
  have h := verify_stage_weighted_scoring exCollab 0 "const foo = 1" exReqs "ctx"
    exReport exVerify_eq
  exact ⟨exVerify_eq, h.1, h.2.1, h.2.2.2⟩

/-- Requirements of the static-pass/zero-score scenario: no required
patterns, a design reference present. -/
def lowReqs : Requirements := ⟨"vue", [], some "http://design"⟩

/-- Collaborator responses for the static-pass/zero-score scenario: the
static stage fully passes, every graded signal is 0, the single sandbox
case errors, and every consensus model answers no. -/
def lowCollab : Collaborators :=
  { parseOutcome := fun _ _ => none
    securityScan := fun _ => ⟨0, []⟩
    lintRes := fun _ _ => none
    coverage := fun _ _ => ⟨[], [], 0⟩
    designMatch := fun _ _ => ⟨false, [], 0⟩
    genTests := fun _ => [⟨"t1", "js", "1"⟩]
    evalCase := fun _ => .error "boom"
    peerReview := fun _ _ _ => ⟨none, none, none, none, [], none⟩
    modelResponse := fun _ _ _ => "no" }

/-- The report `verify` produces for the static-pass/zero-score scenario. -/
def lowReport : Report :=
  { id := "verify_0"
    requirements := lowReqs
    code := "abc"
    timestamp := 0
    results :=
      { static := ⟨none, [], ⟨0, []⟩, none, true⟩
        spec := ⟨⟨[], [], 0⟩, some ⟨false, [], 0⟩, 0, false⟩
        runtime := .testRun ⟨false, [⟨"t1", false, none, some "boom"⟩], 0⟩
        peer := ⟨none, none, none, none, [], none⟩
        consensus := ⟨false, 0, [false, false, false]⟩ }
    verification_score := 0
    verified := false }

theorem lowVerify_eq :
    verify lowCollab 0 "abc" lowReqs "ctx" = .ok lowReport := by
  have hstatic : full_static_check none ⟨0, []⟩ none "abc" lowReqs
      = ⟨none, [], ⟨0, []⟩, none, true⟩ := by decide
  have hsandbox : execute_in_sandbox (fun _ => .error "boom") [⟨"t1", "js", "1"⟩]
      = [⟨"t1", false, none, some "boom"⟩] := by decide
  have hvotes : (consensusModels.map
      (fun _ => strContains (strLower "no") "yes")) = [false, false, false] := by decide
  unfold verify
  dsimp only [lowCollab]
  rw [hstatic]
  dsimp only
  unfold validate_component
  rw [hsandbox]
  unfold cross_model_verification
  rw [hvotes]
  dsimp only [Except.map]
  have hurl : ("http://design" : String) ≠ "" := by decide
  norm_num [full_spec_check, pyTruthy, lowReqs, hurl,
    consensusOf, stageContribution, staticView,
    specView, runtimeView, peerView, consensusView, lowReport]
  rfl

/-- Claim C1 (counterexample): a verify run whose static stage fully
passes (`valid = true`) but whose other signals are all 0 yields an
aggregate score of 0, not the 0.20 static weight the claim's rule
predicts — the static stage contributes nothing. -/
theorem static_pass_contributes_nothing :
    (verify lowCollab 0 "abc" lowReqs "ctx").map
        (fun r => (r.results.static.valid, r.verification_score))
      = .ok (true, 0)
    ∧ (0 : ℚ) ≠ 0.2 := by
  constructor
  · rw [lowVerify_eq]
    rfl
  · norm_num

/-- Claim C2 (amended): in the worked scenario — pattern `foo` present,
static passes, spec coverage 0.9, runtime 5/5, peer confidence 0.9,
consensus 3/3 — `verify` returns score 0.785 (= 0 + 0.30 + 0.30 + 0.135 +
0.05; the static stage contributes 0 and the spec stage its full 0.30) and
`verified = false`. -/
theorem example_scenario_score :
    (verify exCollab 0 "const foo = 1" exReqs "ctx").map
        (fun r => (r.verification_score, r.verified)) = .ok (0.785, false)
    ∧ (0.785 : ℚ) = 0 + 0.3 + 0.3 + 0.135 + 0.05 := by
  constructor
  · rw [exVerify_eq]
    rfl
  · norm_num

/-- Claim C2 (counterexample): the claimed outcome — score 0.955 and
`verified = true` — does not hold in the worked scenario. -/
theorem example_scenario_not_as_claimed :
    ¬ ((verify exCollab 0 "const foo = 1" exReqs "ctx").map
        (fun r => (r.verification_score, r.verified)) = .ok (0.955, true)) := by
  rw [exVerify_eq]
  intro hcontra
  have h : (0.785 : ℚ) = 0.955 := by
    have := congrArg (fun x => match x with
      | Except.ok (p : ℚ × Bool) => p.1
      | Except.error _ => 0) hcontra
    simpa [exReport] using this
  norm_num at h

/-- Claim C4: when the static stage's `valid` flag is false, the runtime
checker is not invoked (the result does not depend on the test-generation
or sandbox collaborators), the runtime stage is recorded as the `Skipped`
marker with reason `Static validation failed`, and that stage contributes
exactly 0; when `valid` is true the runtime checker is invoked (its result
— value or exception — is what `verify` records or propagates). -/
theorem runtime_gated_on_static (co : Collaborators) (now : Nat) (code : String)
    (reqs : Requirements) (ctx : String) :
    ((full_static_check (co.parseOutcome code reqs) (co.securityScan code)
        (co.lintRes code reqs) code reqs).valid = false →
      (∀ g e, verify { co with genTests := g, evalCase := e } now code reqs ctx
          = verify co now code reqs ctx)
      ∧ ∃ r, verify co now code reqs ctx = .ok r
          ∧ r.results.runtime = .skipped "Static validation failed"
          ∧ stageContribution (runtimeView r.results.runtime) 0.3 = 0)
    ∧ ((full_static_check (co.parseOutcome code reqs) (co.securityScan code)
        (co.lintRes code reqs) code reqs).valid = true →
      (∀ run, validate_component (co.genTests reqs) co.evalCase = .ok run →
        ∃ r, verify co now code reqs ctx = .ok r
          ∧ r.results.runtime = .testRun run)
      ∧ (∀ err, validate_component (co.genTests reqs) co.evalCase = .error err →
        verify co now code reqs ctx = .error err)) := by
  constructor
  · intro hv
    constructor
    · intro g e
      unfold verify
      dsimp only
      rw [if_neg (by simp [hv]), if_neg (by simp [hv])]
    · unfold verify
      dsimp only
      rw [if_neg (by simp [hv])]
      exact ⟨_, rfl, rfl, rfl⟩
  · intro hv
    constructor
    · intro run hrun
      unfold verify
      dsimp only
      rw [if_pos hv, hrun]
      exact ⟨_, rfl, rfl⟩
    · intro err herr
      unfold verify
      dsimp only
      rw [if_pos hv, herr]
      rfl

/-- Witness for C4 at a scenario whose code misses the required pattern. -/
theorem runtime_gated_on_static_witness :
    (full_static_check (exCollab.parseOutcome "bar" exReqs)
        (exCollab.securityScan "bar") (exCollab.lintRes "bar" exReqs) "bar" exReqs).valid
      = false
    ∧ verify { exCollab with genTests := fun _ => [], evalCase := fun _ => .error "x" }
        0 "bar" exReqs "ctx"
      = verify exCollab 0 "bar" exReqs "ctx"
    ∧ (verify exCollab 0 "bar" exReqs "ctx").map (fun r => r.results.runtime)
      = .ok (.skipped "Static validation failed") := by
  have hv : (full_static_check (exCollab.parseOutcome "bar" exReqs)
      (exCollab.securityScan "bar") (exCollab.lintRes "bar" exReqs) "bar" exReqs).valid
      = false := by decide
  have h := (runtime_gated_on_static exCollab 0 "bar" exReqs "ctx").1 hv
  obtain ⟨r, hr, hrt, -⟩ := h.2
  refine ⟨hv, h.1 _ _, ?_⟩
  rw [hr]
  simp [Except.map, hrt]

theorem stageContribution_le (v : StageView) (w : ℚ) (hw : 0 ≤ w)
    (hs : ∀ s, v.score = some s → s ≤ 1)
    (hc : ∀ c, v.confidence = some c → c ≤ 1) :
    stageContribution v w ≤ w := by
  rcases hsv : v.score with _ | s
  · rcases hcv : v.confidence with _ | c
    · have heq : stageContribution v w = if v.passed then w else 0 := by
        unfold stageContribution
        rw [hsv, hcv]
      rw [heq]
      split <;> simp [hw]
    · have heq : stageContribution v w = c * w := by
        unfold stageContribution
        rw [hsv, hcv]
      rw [heq]
      have := hc c hcv
      nlinarith
  · have heq : stageContribution v w = s * w := by
      unfold stageContribution
      rw [hsv]
    rw [heq]
    have := hs s hsv
    nlinarith

theorem cross_model_confidence_le_one (resp : String → String) :
    (cross_model_verification resp).confidence ≤ 1 := by
  have hlen : (consensusModels.map
      (fun model => strContains (strLower (resp model)) "yes")).length = 3 := by
    simp [consensusModels]
  have hfilter := List.length_filter_le id (consensusModels.map
      (fun model => strContains (strLower (resp model)) "yes"))
  rw [hlen] at hfilter
  unfold cross_model_verification consensusOf
  dsimp only
  rw [hlen]
  rw [div_le_one (by norm_num)]
  exact_mod_cast hfilter

/-- Claim C5: whenever the peer review result has no `score` key and its
`confidence`, if present, is at most 1, the aggregate score is at most
0.80 and the report is not verified — the static stage always contributes
0, the spec and runtime stages at most their weights 0.30, the peer stage
at most 0.15 and the consensus stage at most 0.05 — and the report
appended to `verification_history` is that unverified report. -/
theorem unverifiable_below_threshold (co : Collaborators) (now : Nat)
    (code : String) (reqs : Requirements) (ctx : String)
    (history : List Report) (r : Report) (hist2 : List Report)
    (hps : (co.peerReview code reqs ctx).score = none)
    (hpc : ∀ c, (co.peerReview code reqs ctx).confidence = some c → c ≤ 1)
    (hok : verify_with_history co now code reqs ctx history = .ok (r, hist2)) :
    r.verification_score ≤ 0.8 ∧ r.verified = false ∧ hist2 = history ++ [r] := by
  unfold verify_with_history at hok
  split at hok
  next e heq => exact absurd hok (by simp)
  next rep heq =>
    injection hok with hok
    injection hok with h1 h2
    rw [h1] at heq h2
    subst h2
    obtain ⟨hst, hsp, hpe, hco, hscore, hver⟩ := verify_ok_shape co now code reqs ctx r heq
    have hc1 : stageContribution (staticView r.results.static) 0.2 = 0 := rfl
    have hc2 : stageContribution (specView r.results.spec) 0.3 ≤ 0.3 :=
      stageContribution_le _ _ (by norm_num)
        (fun s hs => by simp [specView] at hs)
        (fun c hc => by simp [specView] at hc)
    have hc3 : stageContribution (runtimeView r.results.runtime) 0.3 ≤ 0.3 :=
      stageContribution_le _ _ (by norm_num)
        (fun s hs => by
          cases h : r.results.runtime <;> rw [h] at hs <;> simp [runtimeView] at hs)
        (fun c hc => by
          cases h : r.results.runtime <;> rw [h] at hc <;> simp [runtimeView] at hc)
    have hc4 : stageContribution (peerView r.results.peer) 0.15 ≤ 0.15 :=
      stageContribution_le _ _ (by norm_num)
        (fun s hs => by rw [hpe] at hs; simp [peerView, hps] at hs)
        (fun c hc => by
          rw [hpe] at hc
          simp only [peerView] at hc
          exact hpc c hc)
    have hc5 : stageContribution (consensusView r.results.consensus) 0.05 ≤ 0.05 :=
      stageContribution_le _ _ (by norm_num)
        (fun s hs => by simp [consensusView] at hs)
        (fun c hc => by
          simp only [consensusView] at hc
          rw [hco] at hc
          injection hc with hc
          rw [← hc]
          exact cross_model_confidence_le_one _)
    have hbound : r.verification_score ≤ 0.8 := by
      rw [hscore, hc1]
      linarith
    refine ⟨hbound, ?_, rfl⟩
    cases hb : r.verified with
    | false => rfl
    | true =>
      have h85 := hver.mp hb
      have : (0.85 : ℚ) ≤ 0.8 := le_trans h85 hbound
      norm_num at this

/-- Witness for C5 at the worked scenario (peer confidence 0.9, no score
key): the aggregate is 0.785 and the appended report is unverified. -/
theorem unverifiable_below_threshold_witness :
    exReport.verification_score ≤ 0.8 ∧ exReport.verified = false
    ∧ [exReport] = ([] : List Report) ++ [exReport] := by
  have hok : verify_with_history exCollab 0 "const foo = 1" exReqs "ctx" []
      = .ok (exReport, [exReport]) := by
    unfold verify_with_history
    rw [exVerify_eq]
    rfl
  exact unverifiable_below_threshold exCollab 0 "const foo = 1" exReqs "ctx"
    [] exReport [exReport] rfl
    (fun c hc => by
      simp only [exCollab] at hc
      injection hc with hc
      rw [← hc]
      norm_num)
    hok

end Aleph
